import Mathlib

/-!
# Ice Runner simulation engine — shallow embedding

Embedding of the game-loop logic of `src/App.js` (an Expo / React Native
endless-lane runner).  The engine state is held in React `useState` hooks and
mirrored into `useRef` cells; the per-frame `update` callback (lines 138-202)
advances it.

Modelling decisions, each traceable to the source:

* JavaScript numbers are modelled as exact rationals (`ℚ`).  All constants of
  the game (`3.2`, `0.08`, `0.35`, `25`, ...) are short decimals; no claim in
  scope depends on binary floating-point rounding.
* The obstacle `id` field (`Date.now()` + `Math.random()`, line 191) is a
  render key only: it is never read by the simulation, so it is omitted from
  the obstacle record (the spec calls it an opaque identity).
* `Math.random()` draws are modelled as inputs: each tick event carries the
  rational `r ∈ [0,1)` that `randomLane` (line 40) would consume,
  `randomLane r = ⌊r * LANES⌋`.
* `lanePositions` (line 46) is an array indexed by lanes `0..LANES-1`; we
  totalise the same affine formula over all of `ℤ` (in-range access is an
  invariant of the engine, claim C6).
* `computeJumpOffset` (line 32) returns `0` for `remaining ≤ 0` and otherwise
  `sin(π·progress)·JUMP_HEIGHT`, a transcendental value.  The environment
  carries an abstract `jumpArc : ℚ → ℚ` for the `remaining > 0` branch; no
  claim in scope depends on its value, because the collision test is gated on
  the player being grounded, where the offset is `0` by the early return.
* React update timing.  Within one `update` call the engine performs
  `setJumpClock` (line 144) and `setObstacles` (line 146).  Under React 18
  automatic batching (any modern Expo runtime) both functional updates run in
  a single subsequent render, in hook order, and the `useRef` mirrors
  (`jumpingRef`, `jumpOffsetRef`, `scoreRef`, `playerLaneRef`) are refreshed
  only by `useEffect` callbacks *after* that render commits (lines 65-77).
  Consequently, during a tick the obstacle updater reads the ref values of the
  state *committed before the tick*:
  - `jumpingRef.current` (line 162) is `jumpClock > 0` for the pre-decrement
    jump clock, not the value just written by line 144;
  - `scoreRef.current` read by `handleCollision` (line 118) does not include
    the `setScore` increment queued at line 177 in the same tick — in fact
    this holds in every React version, since refs are refreshed post-commit
    while `handleCollision` runs inside the updater itself.
  Between two engine events (frames, button presses) all pending renders and
  effects settle, so the model is a plain state-transition function on the
  committed state.
* `update` does not run while `isGameOver` (the effect at line 130 returns
  early and the game-over render cancels the pending animation frame), so a
  tick in the dead state is the identity.
-/

/-- `LANES` (line 22). -/
def LANES : ℤ := 3

/-- `BASE_SPEED = 3.2` (line 23). -/
def BASE_SPEED : ℚ := 16 / 5

/-- `OBSTACLE_SIZE` (line 24). -/
def OBSTACLE_SIZE : ℚ := 70

/-- `SNOWMAN_SIZE` (line 25). -/
def SNOWMAN_SIZE : ℚ := 90

/-- `JUMP_DURATION` in milliseconds (line 26). -/
def JUMP_DURATION : ℚ := 900

/-- Speed gain per score point, `0.08` (line 153). -/
def SPEED_SCORE_COEFF : ℚ := 2 / 25

/-- Width of the collision window as a fraction of a lane, `0.35` (line 165). -/
def LANE_OVERLAP_FRACTION : ℚ := 7 / 20

/-- Layout values derived from the window dimensions (lines 44-49), plus the
abstract jump-arc function standing for `Math.sin(π·progress) * JUMP_HEIGHT`
on the airborne branch of `computeJumpOffset`. -/
structure Env where
  laneWidth : ℚ
  fieldHeight : ℚ
  jumpArc : ℚ → ℚ

/-- `lanePositions[idx] = 20 + idx * laneWidth + laneWidth / 2` (line 47),
totalised over `ℤ`. -/
def lanePositions (env : Env) (idx : ℤ) : ℚ :=
  20 + idx * env.laneWidth + env.laneWidth / 2

/-- `playerBaseline = fieldHeight - 30` (line 49). -/
def playerBaseline (env : Env) : ℚ :=
  env.fieldHeight - 30

/-- `computeJumpOffset` (lines 32-38): `0` when `remaining ≤ 0`, otherwise the
sinusoidal arc value, abstracted into the environment. -/
def computeJumpOffset (env : Env) (remaining : ℚ) : ℚ :=
  if remaining ≤ 0 then 0 else env.jumpArc remaining

/-- `randomLane = Math.floor(Math.random() * LANES)` (line 40), with the
`Math.random()` draw `r` supplied as an input. -/
def randomLane (r : ℚ) : ℤ :=
  Int.floor (r * (LANES : ℚ))

/-- An obstacle (spawned at lines 190-195): its lane, cached horizontal centre
`x = lanePositions[lane]`, and vertical position `y`.  The render-key `id` is
omitted (never read by the simulation). -/
structure Obstacle where
  lane : ℤ
  x : ℚ
  y : ℚ
deriving DecidableEq

/-- The committed React state owned by the engine: `playerLane`, `jumpClock`,
`obstacles`, `score`, `highScore`, `isGameOver` (lines 51-56) and the mutable
`spawnTimerRef` (line 62). -/
structure GameState where
  playerLane : ℤ
  jumpClock : ℚ
  obstacles : List Obstacle
  score : ℕ
  highScore : ℕ
  spawnTimer : ℚ
  isGameOver : Bool
deriving DecidableEq

/-- Initial state (lines 51-56, 62): lane `1`, everything else zero / empty /
alive. -/
def initialState : GameState :=
  { playerLane := 1, jumpClock := 0, obstacles := [], score := 0,
    highScore := 0, spawnTimer := 0, isGameOver := false }

/-- The `prev.forEach` loop of the obstacle updater (lines 155-174), classifying
each obstacle after moving it by `speed`: passed the field (counted in the
middle component), in the collision zone (first component set), or kept with
the new position (third component, order preserved).  The parameters snapshot
the ref values read by the loop: `jumping = jumpingRef.current`,
`pLane = playerLaneRef.current`, `playerX = lanePositions[pLane]`,
`playerBottom = playerBaseline - jumpOffsetRef.current`,
`playerTop = playerBottom - SNOWMAN_SIZE`. -/
def classify (env : Env) (jumping : Bool) (pLane : ℤ)
    (playerX speed playerBottom playerTop : ℚ) :
    List Obstacle → Bool × ℕ × List Obstacle
  | [] => (false, 0, [])
  | obs :: rest =>
    let res := classify env jumping pLane playerX speed playerBottom playerTop rest
    let newY := obs.y + speed
    if env.fieldHeight + OBSTACLE_SIZE < newY then
      (res.1, res.2.1 + 1, res.2.2)
    else if jumping = false ∧ obs.lane = pLane ∧
        |playerX - obs.x| < env.laneWidth * LANE_OVERLAP_FRACTION ∧
        playerTop + 10 < newY + OBSTACLE_SIZE ∧ newY < playerBottom - 10 then
      (true, res.2.1, res.2.2)
    else
      (res.1, res.2.1, { obs with y := newY } :: res.2.2)

/-- The per-obstacle vertical speed of a tick,
`(BASE_SPEED + score * 0.08) * (delta / (1000 / 60))` (lines 142, 153);
`scoreRef.current` is the pre-tick score. -/
def tickSpeed (delta : ℚ) (s : GameState) : ℚ :=
  (BASE_SPEED + (s.score : ℚ) * SPEED_SCORE_COEFF) * (delta / (1000 / 60))

/-- The obstacle pass of a tick (lines 146-174), with the ref snapshot taken
from the committed pre-tick state: `jumpingRef` is `s.jumpClock > 0` (the
pre-decrement clock — the `setJumpClock` of line 144 has not been committed,
let alone mirrored into the ref, when the updater runs). -/
def tickClassify (env : Env) (delta : ℚ) (s : GameState) :
    Bool × ℕ × List Obstacle :=
  let jumping : Bool := decide (0 < s.jumpClock)
  let playerX := lanePositions env s.playerLane
  let playerBottom := playerBaseline env - computeJumpOffset env s.jumpClock
  let playerTop := playerBottom - SNOWMAN_SIZE
  classify env jumping s.playerLane playerX (tickSpeed delta s)
    playerBottom playerTop s.obstacles

/-- One call of `update` (lines 138-202) on the committed state, taking the
elapsed `delta` and the `Math.random()` draw `r` that a spawn would consume.
A dead state is untouched (the loop is not running, line 131).  Otherwise:
`jumpClock` is decremented and floored at `0` (line 144); the obstacles are
classified; `score` gains one point per passed obstacle (line 177, a
functional update, hence applied even when the tick also collides); on a
collision the obstacle list is cleared and `handleCollision` (lines 116-119)
sets `isGameOver` and raises `highScore` to `max highScore scoreRef.current`
— the *pre-tick* score, excluding this tick's increments — and the spawn
block is skipped entirely (return at line 182).  Otherwise the spawn timer
accumulates `delta` and, once it reaches
`max 250 (900 - score * 25)` (line 186), resets to `0` and appends one
obstacle at lane `randomLane r` with `y = -OBSTACLE_SIZE - 20`
(lines 187-196). -/
def tickStep (env : Env) (delta r : ℚ) (s : GameState) : GameState :=
  if s.isGameOver then s
  else
    let jumpClock' := max 0 (s.jumpClock - delta)
    let res := tickClassify env delta s
    let score' := s.score + res.2.1
    if res.1 then
      { s with jumpClock := jumpClock', obstacles := [], score := score',
               highScore := max s.highScore s.score, isGameOver := true }
    else
      let spawnTimer' := s.spawnTimer + delta
      let interval := max 250 (900 - (s.score : ℚ) * 25)
      if interval ≤ spawnTimer' then
        let laneIdx := randomLane r
        { s with jumpClock := jumpClock', score := score',
                 obstacles := res.2.2 ++
                   [{ lane := laneIdx, x := lanePositions env laneIdx,
                      y := -OBSTACLE_SIZE - 20 }],
                 spawnTimer := 0 }
      else
        { s with jumpClock := jumpClock', score := score',
                 obstacles := res.2.2, spawnTimer := spawnTimer' }

/-- `triggerJump` (lines 104-106): start a jump only when the clock is not
already running.  Not gated on `isGameOver` (the Jump button stays wired,
line 310). -/
def triggerJump (s : GameState) : GameState :=
  { s with jumpClock := if 0 < s.jumpClock then s.jumpClock else JUMP_DURATION }

/-- `moveLeft` (lines 108-110): `lane := max 0 (lane - 1)`.  Not gated on
`isGameOver`. -/
def moveLeft (s : GameState) : GameState :=
  { s with playerLane := max 0 (s.playerLane - 1) }

/-- `moveRight` (lines 112-114): `lane := min (LANES - 1) (lane + 1)`.  Not
gated on `isGameOver`. -/
def moveRight (s : GameState) : GameState :=
  { s with playerLane := min (LANES - 1) (s.playerLane + 1) }

/-- `resetGame` (lines 121-128): restore the initial fields, keep
`highScore`. -/
def resetGame (s : GameState) : GameState :=
  { s with playerLane := 1, jumpClock := 0, obstacles := [], score := 0,
           spawnTimer := 0, isGameOver := false }

/-- The engine's external events: a frame tick (with its elapsed milliseconds
and the random draw a spawn would consume), the two lane-change requests, a
jump request, and reset. -/
inductive Event where
  | tick (delta r : ℚ)
  | jump
  | left
  | right
  | reset
deriving DecidableEq

/-- Apply one event to the committed state. -/
def step (env : Env) : Event → GameState → GameState
  | .tick d r, s => tickStep env d r s
  | .jump, s => triggerJump s
  | .left, s => moveLeft s
  | .right, s => moveRight s
  | .reset, s => resetGame s

/-- Run a sequence of events. -/
def run (env : Env) : List Event → GameState → GameState
  | [], s => s
  | e :: rest, s => run env rest (step env e s)

/-- The full state trajectory of a sequence of events (initial state
included). -/
def trajectory (env : Env) : List Event → GameState → List GameState
  | [], s => [s]
  | e :: rest, s => s :: trajectory env rest (step env e s)

/-- Every tick of the event list has a non-negative elapsed time (the spec's
precondition `deltaMs >= 0`; in the source `delta = Date.now() - lastTime`). -/
def validEvents : List Event → Prop
  | [] => True
  | .tick d _ :: rest => 0 ≤ d ∧ validEvents rest
  | _ :: rest => validEvents rest

/-- The pre-tick scores recorded at each game-over event of a run: the value
`scoreRef.current` that `handleCollision` feeds into `highScore` on each tick
that detects a collision while alive. -/
def goScores (env : Env) : List Event → GameState → List ℕ
  | [], _ => []
  | .tick d r :: rest, s =>
    if s.isGameOver = false ∧ (tickClassify env d s).1 = true then
      s.score :: goScores env rest (step env (.tick d r) s)
    else
      goScores env rest (step env (.tick d r) s)
  | .jump :: rest, s => goScores env rest (step env .jump s)
  | .left :: rest, s => goScores env rest (step env .left s)
  | .right :: rest, s => goScores env rest (step env .right s)
  | .reset :: rest, s => goScores env rest (step env .reset s)

/-! ## Basic lemmas about the tick -/

/-- With the jumping flag set, the obstacle loop can never report a collision:
the collision branch (line 162) is guarded by `!jumpingRef.current`. -/
lemma classify_jumping_not_collide (env : Env) (pLane : ℤ)
    (playerX speed playerBottom playerTop : ℚ) :
    ∀ l : List Obstacle,
      (classify env true pLane playerX speed playerBottom playerTop l).1 = false := by
  intro l
  induction l with
  | nil => rfl
  | cons o rest ih =>
    simp only [classify]
    split
    · exact ih
    · split
      · rename_i h
        simp at h
      · exact ih

/-- The cleared count of the obstacle loop is the number of obstacles whose
advanced position passes the field (line 157), independently of the collision
outcome. -/
lemma classify_cleared_count (env : Env) (jumping : Bool) (pLane : ℤ)
    (playerX speed playerBottom playerTop : ℚ) :
    ∀ l : List Obstacle,
      (classify env jumping pLane playerX speed playerBottom playerTop l).2.1 =
        (l.filter fun o =>
          decide (env.fieldHeight + OBSTACLE_SIZE < o.y + speed)).length := by
  intro l
  induction l with
  | nil => rfl
  | cons o rest ih =>
    simp only [classify, List.filter_cons]
    split
    · rename_i h
      simp [h, ih]
    · rename_i h
      split
      · simp [h, ih]
      · simp [h, ih]

/-- A tick never moves the player between lanes. -/
lemma tickStep_playerLane (env : Env) (d r : ℚ) (s : GameState) :
    (tickStep env d r s).playerLane = s.playerLane := by
  simp only [tickStep]
  split
  · rfl
  · split
    · rfl
    · split <;> rfl

/-- The jump clock after a live tick is the decremented clock floored at `0`
(line 144); a dead state is untouched. -/
lemma tickStep_jumpClock (env : Env) (d r : ℚ) (s : GameState) :
    (tickStep env d r s).jumpClock =
      if s.isGameOver then s.jumpClock else max 0 (s.jumpClock - d) := by
  simp only [tickStep]
  split
  · rfl
  · split
    · rfl
    · split <;> rfl

/-- A tick ends in the dead state exactly when it started dead or its obstacle
pass reported a collision. -/
lemma tickStep_isGameOver (env : Env) (d r : ℚ) (s : GameState) :
    (tickStep env d r s).isGameOver = (s.isGameOver || (tickClassify env d s).1) := by
  simp only [tickStep]
  split
  · rename_i h
    simp [h]
  · rename_i h
    simp only [Bool.not_eq_true] at h
    split
    · rename_i hc
      simp [h, hc]
    · rename_i hc
      simp only [Bool.not_eq_true] at hc
      split <;> simp [h, hc]

/-- `highScore` changes only on a collision tick, and there it is raised with
the pre-tick score `scoreRef.current` (line 118). -/
lemma tickStep_highScore (env : Env) (d r : ℚ) (s : GameState) :
    (tickStep env d r s).highScore =
      if s.isGameOver = false ∧ (tickClassify env d s).1 = true then
        max s.highScore s.score
      else s.highScore := by
  simp only [tickStep]
  split
  · rename_i h
    simp [h]
  · rename_i h
    simp only [Bool.not_eq_true] at h
    split
    · rename_i hc
      simp [h, hc]
    · rename_i hc
      simp only [Bool.not_eq_true] at hc
      split <;> simp [h, hc]

/-! ## Claims -/

/-- **C9** — `reset()` (lines 121-128) sets the lane to the middle lane
(`LANES / 2` by integer division, which is the literal `1` of line 122),
zeroes `jumpRemaining`, `score` and the spawn accumulator, clears the
obstacles, revives the player, and leaves `bestScore` untouched; it is
idempotent. -/
theorem reset_effect_and_idempotence (s : GameState) :
    resetGame s =
      { playerLane := LANES / 2, jumpClock := 0, obstacles := [], score := 0,
        highScore := s.highScore, spawnTimer := 0, isGameOver := false } ∧
    resetGame (resetGame s) = resetGame s := by
  constructor
  · rfl
  · rfl

/-- **C10** — determinism as a two-run property: two engine instances with the
same layout, fed identical event sequences (identical tick deltas and
identical random-lane draws) from identical initial states, traverse
identical state trajectories. -/
theorem two_run_determinism (env₁ env₂ : Env) (evs₁ evs₂ : List Event)
    (s₁ s₂ : GameState) (henv : env₁ = env₂) (hevs : evs₁ = evs₂)
    (hs : s₁ = s₂) :
    trajectory env₁ evs₁ s₁ = trajectory env₂ evs₂ s₂ := by
  subst henv
  subst hevs
  subst hs
  rfl

/-- Witness for C10 at a concrete pair of identical runs. -/
theorem two_run_determinism_witness :
    (Env.mk 100 560 (fun _ => 0)) = (Env.mk 100 560 (fun _ => 0)) ∧
    trajectory (Env.mk 100 560 (fun _ => 0)) [.jump, .tick 100 (1/2), .left]
        initialState =
      trajectory (Env.mk 100 560 (fun _ => 0)) [.jump, .tick 100 (1/2), .left]
        initialState :=
  ⟨rfl, two_run_determinism _ _ _ _ _ _ rfl rfl rfl⟩

/-- **C4, counterexample** — the claim says that with `alive == false` every
`requestLaneChange` / `requestJump` leaves the state unchanged.  In the source
`moveLeft` / `moveRight` / `triggerJump` (lines 104-114) are not gated on
`isGameOver`: from the dead state with the player in lane 1, a left request
moves the player to lane 0. -/
theorem dead_state_inputs_not_absorbed :
    (moveLeft ⟨1, 0, [], 0, 0, 0, true⟩).playerLane = 0 ∧
    moveLeft ⟨1, 0, [], 0, 0, 0, true⟩ ≠ (⟨1, 0, [], 0, 0, 0, true⟩ : GameState) := by
  constructor
  · rfl
  · intro h
    have := congrArg GameState.playerLane h
    simp [moveLeft] at this

/-- **C4, amended** — the input handlers are not gated on `alive`: in a dead
state they apply exactly the same transition as in a live one (clamped lane
step; jump started only when the clock is zero), silently and without any
error signal. -/
theorem dead_state_inputs_behave_as_alive (s : GameState)
    (_dead : s.isGameOver = true) :
    moveLeft s = { s with playerLane := max 0 (s.playerLane - 1) } ∧
    moveRight s = { s with playerLane := min (LANES - 1) (s.playerLane + 1) } ∧
    triggerJump s =
      { s with jumpClock := if 0 < s.jumpClock then s.jumpClock else JUMP_DURATION } := by
  exact ⟨rfl, rfl, rfl⟩

/-- Witness for the amended C4 at a concrete dead state. -/
theorem dead_state_inputs_behave_as_alive_witness :
    (⟨1, 0, [], 0, 0, 0, true⟩ : GameState).isGameOver = true ∧
    moveLeft ⟨1, 0, [], 0, 0, 0, true⟩ =
      { (⟨1, 0, [], 0, 0, 0, true⟩ : GameState) with playerLane := max 0 (1 - 1) } ∧
    moveRight ⟨1, 0, [], 0, 0, 0, true⟩ =
      { (⟨1, 0, [], 0, 0, 0, true⟩ : GameState) with playerLane := min (LANES - 1) (1 + 1) } ∧
    triggerJump ⟨1, 0, [], 0, 0, 0, true⟩ =
      { (⟨1, 0, [], 0, 0, 0, true⟩ : GameState) with
          jumpClock := if 0 < (0 : ℚ) then 0 else JUMP_DURATION } :=
  ⟨rfl, dead_state_inputs_behave_as_alive ⟨1, 0, [], 0, 0, 0, true⟩ rfl⟩

/-- **C5** — for every state with `0 ≤ lane < LANES`, a lane-change request
moves the lane by one step toward the requested side, clamped to
`[0, LANES - 1]` (lines 108-114), with no effect at all at the bound; in
particular from lane 1 one left request reaches lane 0 and a second one
leaves it there. -/
theorem lane_change_clamps (s : GameState) (h0 : 0 ≤ s.playerLane)
    (h2 : s.playerLane < LANES) :
    (moveLeft s).playerLane = max 0 (min (LANES - 1) (s.playerLane - 1)) ∧
    (moveRight s).playerLane = max 0 (min (LANES - 1) (s.playerLane + 1)) ∧
    (s.playerLane = 0 → moveLeft s = s) ∧
    (s.playerLane = LANES - 1 → moveRight s = s) ∧
    (s.playerLane = 1 →
      (moveLeft s).playerLane = 0 ∧ (moveLeft (moveLeft s)).playerLane = 0) := by
  simp only [LANES] at h2 ⊢
  refine ⟨?_, ?_, ?_, ?_, ?_⟩
  · simp only [moveLeft, LANES]
    omega
  · simp only [moveRight, LANES]
    omega
  · intro hz
    cases s with
    | mk pl jc obs sc hs st go =>
      simp only [GameState.playerLane] at hz
      subst hz
      rfl
  · intro hz
    cases s with
    | mk pl jc obs sc hs st go =>
      simp only [GameState.playerLane] at hz
      subst hz
      rfl
  · intro hz
    constructor
    · simp only [moveLeft, hz]
      rfl
    · simp only [moveLeft, hz]
      rfl

/-- Witness for C5 at the scenario state: lane 1, two left requests. -/
theorem lane_change_clamps_witness :
    (0 ≤ (⟨1, 0, [], 0, 0, 0, false⟩ : GameState).playerLane ∧
      (⟨1, 0, [], 0, 0, 0, false⟩ : GameState).playerLane < LANES) ∧
    ((moveLeft ⟨1, 0, [], 0, 0, 0, false⟩).playerLane =
        max 0 (min (LANES - 1) (1 - 1)) ∧
      (moveRight ⟨1, 0, [], 0, 0, 0, false⟩).playerLane =
        max 0 (min (LANES - 1) (1 + 1)) ∧
      ((⟨1, 0, [], 0, 0, 0, false⟩ : GameState).playerLane = 0 →
        moveLeft ⟨1, 0, [], 0, 0, 0, false⟩ = ⟨1, 0, [], 0, 0, 0, false⟩) ∧
      ((⟨1, 0, [], 0, 0, 0, false⟩ : GameState).playerLane = LANES - 1 →
        moveRight ⟨1, 0, [], 0, 0, 0, false⟩ = ⟨1, 0, [], 0, 0, 0, false⟩) ∧
      ((⟨1, 0, [], 0, 0, 0, false⟩ : GameState).playerLane = 1 →
        (moveLeft ⟨1, 0, [], 0, 0, 0, false⟩).playerLane = 0 ∧
        (moveLeft (moveLeft ⟨1, 0, [], 0, 0, 0, false⟩)).playerLane = 0)) :=
  ⟨⟨by decide, by decide⟩,
    lane_change_clamps ⟨1, 0, [], 0, 0, 0, false⟩ (by decide) (by decide)⟩

/-- Every single event preserves the lane-range invariant. -/
lemma step_lane_bounds (env : Env) (e : Event) (s : GameState)
    (h0 : 0 ≤ s.playerLane) (h2 : s.playerLane < LANES) :
    0 ≤ (step env e s).playerLane ∧ (step env e s).playerLane < LANES := by
  simp only [LANES] at h2 ⊢
  cases e with
  | tick d r =>
    simp only [step, tickStep_playerLane]
    omega
  | jump =>
    simp only [step, triggerJump]
    omega
  | left =>
    simp only [step, moveLeft]
    omega
  | right =>
    simp only [step, moveRight, LANES]
    omega
  | reset =>
    simp only [step, resetGame]
    omega

/-- Lane bounds propagate through any run. -/
lemma run_lane_bounds (env : Env) :
    ∀ (evs : List Event) (s : GameState), 0 ≤ s.playerLane →
      s.playerLane < LANES →
      0 ≤ (run env evs s).playerLane ∧ (run env evs s).playerLane < LANES := by
  intro evs
  induction evs with
  | nil => exact fun s h0 h2 => ⟨h0, h2⟩
  | cons e rest ih =>
    intro s h0 h2
    have h := step_lane_bounds env e s h0 h2
    exact ih (step env e s) h.1 h.2

/-- **C6** — `0 ≤ lane < LANES` holds in the initial state, is preserved by
every operation (tick, lane change, jump, reset), and therefore holds in every
reachable state. -/
theorem lane_in_range_invariant :
    (0 ≤ initialState.playerLane ∧ initialState.playerLane < LANES) ∧
    (∀ (env : Env) (e : Event) (s : GameState),
      0 ≤ s.playerLane → s.playerLane < LANES →
      0 ≤ (step env e s).playerLane ∧ (step env e s).playerLane < LANES) ∧
    (∀ (env : Env) (evs : List Event),
      0 ≤ (run env evs initialState).playerLane ∧
      (run env evs initialState).playerLane < LANES) := by
  refine ⟨⟨by decide, by decide⟩, step_lane_bounds, ?_⟩
  intro env evs
  exact run_lane_bounds env evs initialState (by decide) (by decide)

/-- Witness for C6: the preservation part applied at a concrete state and
event. -/
theorem lane_in_range_invariant_witness :
    (0 ≤ (⟨2, 0, [], 0, 0, 0, false⟩ : GameState).playerLane ∧
      (⟨2, 0, [], 0, 0, 0, false⟩ : GameState).playerLane < LANES) ∧
    (0 ≤ (step (Env.mk 100 560 (fun _ => 0)) .right
            ⟨2, 0, [], 0, 0, 0, false⟩).playerLane ∧
      (step (Env.mk 100 560 (fun _ => 0)) .right
            ⟨2, 0, [], 0, 0, 0, false⟩).playerLane < LANES) :=
  ⟨⟨by decide, by decide⟩,
    lane_in_range_invariant.2.1 (Env.mk 100 560 (fun _ => 0)) .right
      ⟨2, 0, [], 0, 0, 0, false⟩ (by decide) (by decide)⟩

/-- Jump-clock bounds propagate through any run whose tick deltas are
non-negative. -/
lemma run_jumpClock_bounds (env : Env) :
    ∀ (evs : List Event) (s : GameState), validEvents evs →
      0 ≤ s.jumpClock → s.jumpClock ≤ JUMP_DURATION →
      0 ≤ (run env evs s).jumpClock ∧
        (run env evs s).jumpClock ≤ JUMP_DURATION := by
  intro evs
  induction evs with
  | nil => exact fun s _ h0 h9 => ⟨h0, h9⟩
  | cons e rest ih =>
    intro s hv h0 h9
    cases e with
    | tick d r =>
      obtain ⟨hd, hv'⟩ := hv
      refine ih _ hv' ?_ ?_ <;>
        simp only [run, step, tickStep_jumpClock]
      · split
        · exact h0
        · exact le_max_left 0 _
      · split
        · exact h9
        · refine max_le ?_ ?_
          · simp only [JUMP_DURATION]
            norm_num
          · linarith
    | jump =>
      refine ih _ hv ?_ ?_ <;>
        simp only [run, step, triggerJump]
      · split
        · exact h0
        · simp only [JUMP_DURATION]
          norm_num
      · split
        · exact h9
        · exact le_refl _
    | left => exact ih _ hv h0 h9
    | right => exact ih _ hv h0 h9
    | reset =>
      refine ih _ hv ?_ ?_ <;>
        simp only [run, step, resetGame]
      · exact le_refl 0
      · simp only [JUMP_DURATION]
        norm_num

/-- **C7** — `0 ≤ jumpRemaining ≤ JUMP_DURATION` in every state reachable by
events with non-negative tick deltas; `requestJump` while airborne is the
identity (it never resets or extends the clock, lines 104-106), and while
grounded it starts a full `JUMP_DURATION` jump. -/
theorem jump_clock_bounds_invariant :
    (∀ s : GameState, 0 < s.jumpClock → triggerJump s = s) ∧
    (∀ s : GameState, s.jumpClock = 0 →
      (triggerJump s).jumpClock = JUMP_DURATION) ∧
    (∀ (env : Env) (evs : List Event), validEvents evs →
      0 ≤ (run env evs initialState).jumpClock ∧
      (run env evs initialState).jumpClock ≤ JUMP_DURATION) := by
  refine ⟨?_, ?_, ?_⟩
  · intro s h
    simp only [triggerJump, if_pos h]
  · intro s h
    simp [triggerJump, h]
  · intro env evs hv
    refine run_jumpClock_bounds env evs initialState hv (le_refl 0) ?_
    simp only [initialState, JUMP_DURATION]
    norm_num

/-- Witness for C7: a jump followed by a 100 ms tick from the initial state. -/
theorem jump_clock_bounds_invariant_witness :
    validEvents [.jump, .tick 100 (1/2)] ∧
    (0 ≤ (run (Env.mk 100 560 (fun _ => 0)) [.jump, .tick 100 (1/2)]
            initialState).jumpClock ∧
      (run (Env.mk 100 560 (fun _ => 0)) [.jump, .tick 100 (1/2)]
            initialState).jumpClock ≤ JUMP_DURATION) :=
  ⟨by simp [validEvents],
    jump_clock_bounds_invariant.2.2 (Env.mk 100 560 (fun _ => 0))
      [.jump, .tick 100 (1/2)] (by simp [validEvents])⟩

/-- **C3, counterexample** — the claim says the grounded/airborne condition of
a tick's collision test is computed from the post-decrement `jumpRemaining`,
so that a tick whose delta brings the clock from positive to 0 treats the
player as grounded.  In the source the collision test reads
`jumpingRef.current` (line 162), which still mirrors the pre-tick clock:
here the clock goes `100 → 0` in the tick (`delta = 100`), the post-decrement
clock is `0` (grounded per the claim) and the same obstacle pass with the
grounded geometry (`jumping = false`, `playerBottom = 530`,
`playerTop = 440`) would report a collision — yet the engine keeps the player
alive and the obstacle on the field. -/
theorem collision_test_uses_pretick_clock :
    (tickStep (Env.mk 100 560 (fun _ => 0)) 100 0
        ⟨1, 100, [⟨1, 170, 1904/5⟩], 0, 0, 0, false⟩).jumpClock = 0 ∧
    (classify (Env.mk 100 560 (fun _ => 0)) false 1 170 (96/5) 530 440
        [⟨1, 170, 1904/5⟩]).1 = true ∧
    (tickStep (Env.mk 100 560 (fun _ => 0)) 100 0
        ⟨1, 100, [⟨1, 170, 1904/5⟩], 0, 0, 0, false⟩).isGameOver = false ∧
    (tickStep (Env.mk 100 560 (fun _ => 0)) 100 0
        ⟨1, 100, [⟨1, 170, 1904/5⟩], 0, 0, 0, false⟩).obstacles =
      [⟨1, 170, 400⟩] := by
  refine ⟨?_, ?_, ?_, ?_⟩ <;>
    norm_num [tickStep, tickClassify, classify, tickSpeed, lanePositions,
      playerBaseline, computeJumpOffset, OBSTACLE_SIZE, SNOWMAN_SIZE,
      BASE_SPEED, SPEED_SCORE_COEFF, LANE_OVERLAP_FRACTION]

/-- **C3, amended** — within a tick `jumpRemaining` is decreased by `deltaMs`
and floored at 0, but the grounded/airborne condition used by that tick's
collision test is computed from the *pre-decrement* clock (the committed value
mirrored in `jumpingRef`): a tick entered with a positive clock can never
collide, even when its delta brings the clock to 0; the player is grounded for
collision purposes only from the next tick on. -/
theorem tick_clock_floor_and_pretick_grounding (env : Env) (d r : ℚ)
    (s : GameState) (halive : s.isGameOver = false) :
    (tickStep env d r s).jumpClock = max 0 (s.jumpClock - d) ∧
    (0 < s.jumpClock → (tickStep env d r s).isGameOver = false) := by
  constructor
  · rw [tickStep_jumpClock, halive]
    simp
  · intro hj
    rw [tickStep_isGameOver, halive]
    simp only [Bool.false_or]
    simp only [tickClassify]
    rw [decide_eq_true hj]
    exact classify_jumping_not_collide _ _ _ _ _ _ _

/-- Witness for the amended C3: a tick with `delta = 100` from a state with
`jumpClock = 100` and an obstacle that would overlap a grounded player. -/
theorem tick_clock_floor_and_pretick_grounding_witness :
    (⟨1, 100, [⟨1, 170, 1904/5⟩], 0, 0, 0, false⟩ : GameState).isGameOver
        = false ∧
    ((tickStep (Env.mk 100 560 (fun _ => 0)) 100 0
        ⟨1, 100, [⟨1, 170, 1904/5⟩], 0, 0, 0, false⟩).jumpClock =
      max 0 ((100 : ℚ) - 100) ∧
    (0 < (100 : ℚ) →
      (tickStep (Env.mk 100 560 (fun _ => 0)) 100 0
        ⟨1, 100, [⟨1, 170, 1904/5⟩], 0, 0, 0, false⟩).isGameOver = false)) :=
  ⟨rfl,
    tick_clock_floor_and_pretick_grounding (Env.mk 100 560 (fun _ => 0)) 100 0
      ⟨1, 100, [⟨1, 170, 1904/5⟩], 0, 0, 0, false⟩ rfl⟩

/-- **C2** — on every live tick whose obstacle pass detects a collision: the
player dies, the obstacle list is cleared, the spawn block is skipped (the
spawn accumulator is not even advanced, so no obstacle is spawned), and the
score still gains exactly one point per obstacle that passed the field in the
same pass — the colliding obstacle itself is not among them, since an obstacle
is only tested for collision when it has not passed the field (lines 157-171,
176-183). -/
theorem collision_tick_outcome (env : Env) (d r : ℚ) (s : GameState)
    (halive : s.isGameOver = false)
    (hcol : (tickClassify env d s).1 = true) :
    (tickStep env d r s).isGameOver = true ∧
    (tickStep env d r s).obstacles = [] ∧
    (tickStep env d r s).spawnTimer = s.spawnTimer ∧
    (tickStep env d r s).score =
      s.score + (s.obstacles.filter fun o =>
        decide (env.fieldHeight + OBSTACLE_SIZE < o.y + tickSpeed d s)).length := by
  have hcount : (tickClassify env d s).2.1 =
      (s.obstacles.filter fun o =>
        decide (env.fieldHeight + OBSTACLE_SIZE < o.y + tickSpeed d s)).length := by
    simp only [tickClassify]
    exact classify_cleared_count _ _ _ _ _ _ _ _
  refine ⟨?_, ?_, ?_, ?_⟩ <;>
    simp only [tickStep, halive, hcol, Bool.false_eq_true, if_false, if_true,
      hcount]

/-- Witness for C2: one obstacle passes the field (`y = 611`, cleared) and a
second one collides (`y = 380.8`, moved to `400`, inside the grounded player's
band) in the same 100 ms tick. -/
theorem collision_tick_outcome_witness :
    ((⟨1, 0, [⟨1, 170, 611⟩, ⟨1, 170, 1904/5⟩], 0, 0, 0, false⟩ :
        GameState).isGameOver = false ∧
      (tickClassify (Env.mk 100 560 (fun _ => 0)) 100
        ⟨1, 0, [⟨1, 170, 611⟩, ⟨1, 170, 1904/5⟩], 0, 0, 0, false⟩).1 = true) ∧
    ((tickStep (Env.mk 100 560 (fun _ => 0)) 100 0
        ⟨1, 0, [⟨1, 170, 611⟩, ⟨1, 170, 1904/5⟩], 0, 0, 0, false⟩).isGameOver
          = true ∧
      (tickStep (Env.mk 100 560 (fun _ => 0)) 100 0
        ⟨1, 0, [⟨1, 170, 611⟩, ⟨1, 170, 1904/5⟩], 0, 0, 0, false⟩).obstacles
          = [] ∧
      (tickStep (Env.mk 100 560 (fun _ => 0)) 100 0
        ⟨1, 0, [⟨1, 170, 611⟩, ⟨1, 170, 1904/5⟩], 0, 0, 0, false⟩).spawnTimer
          = (⟨1, 0, [⟨1, 170, 611⟩, ⟨1, 170, 1904/5⟩], 0, 0, 0, false⟩ :
              GameState).spawnTimer ∧
      (tickStep (Env.mk 100 560 (fun _ => 0)) 100 0
        ⟨1, 0, [⟨1, 170, 611⟩, ⟨1, 170, 1904/5⟩], 0, 0, 0, false⟩).score
          = (⟨1, 0, [⟨1, 170, 611⟩, ⟨1, 170, 1904/5⟩], 0, 0, 0, false⟩ :
              GameState).score +
            ((⟨1, 0, [⟨1, 170, 611⟩, ⟨1, 170, 1904/5⟩], 0, 0, 0, false⟩ :
                GameState).obstacles.filter fun o =>
              decide ((Env.mk 100 560 (fun _ => 0)).fieldHeight + OBSTACLE_SIZE
                < o.y + tickSpeed 100
                    ⟨1, 0, [⟨1, 170, 611⟩, ⟨1, 170, 1904/5⟩], 0, 0, 0,
                      false⟩)).length) :=
  ⟨⟨rfl, by
      norm_num [tickClassify, classify, tickSpeed, lanePositions,
        playerBaseline, computeJumpOffset, OBSTACLE_SIZE, SNOWMAN_SIZE,
        BASE_SPEED, SPEED_SCORE_COEFF, LANE_OVERLAP_FRACTION]⟩,
    collision_tick_outcome (Env.mk 100 560 (fun _ => 0)) 100 0
      ⟨1, 0, [⟨1, 170, 611⟩, ⟨1, 170, 1904/5⟩], 0, 0, 0, false⟩ rfl
      (by
        norm_num [tickClassify, classify, tickSpeed, lanePositions,
          playerBaseline, computeJumpOffset, OBSTACLE_SIZE, SNOWMAN_SIZE,
          BASE_SPEED, SPEED_SCORE_COEFF, LANE_OVERLAP_FRACTION])⟩

/-- Characterisation of a live, collision-free tick: clock decremented, score
incremented by the cleared count, and the spawn block of lines 185-196 run on
the surviving obstacles. -/
lemma tickStep_no_collision (env : Env) (d r : ℚ) (s : GameState)
    (halive : s.isGameOver = false)
    (hnc : (tickClassify env d s).1 = false) :
    tickStep env d r s =
      if max 250 (900 - (s.score : ℚ) * 25) ≤ s.spawnTimer + d then
        { s with jumpClock := max 0 (s.jumpClock - d),
                 score := s.score + (tickClassify env d s).2.1,
                 obstacles := (tickClassify env d s).2.2 ++
                   [{ lane := randomLane r,
                      x := lanePositions env (randomLane r),
                      y := -OBSTACLE_SIZE - 20 }],
                 spawnTimer := 0 }
      else
        { s with jumpClock := max 0 (s.jumpClock - d),
                 score := s.score + (tickClassify env d s).2.1,
                 obstacles := (tickClassify env d s).2.2,
                 spawnTimer := s.spawnTimer + d } := by
  simp only [tickStep, halive, hnc, Bool.false_eq_true, if_false]

/-- **C8** — on every live tick without a collision the spawn accumulator
grows by `deltaMs`; against the interval
`max 250 (900 - score * 25)` (computed from the tick's starting score,
`scoreRef.current`) it either triggers — accumulator reset to 0 and exactly
one obstacle appended, at lane `⌊r * LANES⌋` and position
`-OBSTACLE_SIZE - 20` — or not, leaving the surviving obstacles unchanged.
The spawned lane is uniform over `[0, LANES)`: it is always in range, and
each lane `k` is drawn exactly for `r` in the third `[k/3, (k+1)/3)` of the
unit interval.  Finally, the scenario of the claim: from the initial state
(`score = 0`), ticks accumulating exactly `900` ms spawn exactly one
obstacle. -/
theorem spawn_mechanics (env : Env) (d r : ℚ) (s : GameState)
    (halive : s.isGameOver = false)
    (hnc : (tickClassify env d s).1 = false)
    (hr0 : 0 ≤ r) (hr1 : r < 1) :
    (max 250 (900 - (s.score : ℚ) * 25) ≤ s.spawnTimer + d →
      (tickStep env d r s).spawnTimer = 0 ∧
      (tickStep env d r s).obstacles =
        (tickClassify env d s).2.2 ++
          [{ lane := randomLane r, x := lanePositions env (randomLane r),
             y := -OBSTACLE_SIZE - 20 }]) ∧
    (s.spawnTimer + d < max 250 (900 - (s.score : ℚ) * 25) →
      (tickStep env d r s).spawnTimer = s.spawnTimer + d ∧
      (tickStep env d r s).obstacles = (tickClassify env d s).2.2) ∧
    (0 ≤ randomLane r ∧ randomLane r < LANES) ∧
    (∀ k : ℤ, randomLane r = k ↔ (k : ℚ) / 3 ≤ r ∧ r < ((k : ℚ) + 1) / 3) ∧
    ((run (Env.mk 100 560 (fun _ => 0)) [.tick 300 0, .tick 300 0]
        initialState).obstacles.length = 0 ∧
      (run (Env.mk 100 560 (fun _ => 0)) [.tick 300 0, .tick 300 0, .tick 300 0]
        initialState).obstacles.length = 1) := by
  refine ⟨?_, ?_, ⟨?_, ?_⟩, ?_, ?_, ?_⟩
  · intro h
    rw [tickStep_no_collision env d r s halive hnc, if_pos h]
    exact ⟨rfl, rfl⟩
  · intro h
    rw [tickStep_no_collision env d r s halive hnc, if_neg (not_le.mpr h)]
    exact ⟨rfl, rfl⟩
  · simp only [randomLane, LANES]
    refine Int.floor_nonneg.mpr ?_
    push_cast
    nlinarith
  · simp only [randomLane, LANES]
    refine Int.floor_lt.mpr ?_
    push_cast
    nlinarith
  · intro k
    simp only [randomLane, LANES]
    rw [Int.floor_eq_iff]
    push_cast
    constructor
    · rintro ⟨h1, h2⟩
      constructor <;> linarith
    · rintro ⟨h1, h2⟩
      constructor <;> linarith
  · norm_num [run, step, tickStep, tickClassify, classify, tickSpeed,
      initialState, randomLane, LANES, lanePositions, playerBaseline,
      computeJumpOffset, OBSTACLE_SIZE, SNOWMAN_SIZE, BASE_SPEED,
      SPEED_SCORE_COEFF, LANE_OVERLAP_FRACTION, max_def]
  · norm_num [run, step, tickStep, tickClassify, classify, tickSpeed,
      initialState, randomLane, LANES, lanePositions, playerBaseline,
      computeJumpOffset, OBSTACLE_SIZE, SNOWMAN_SIZE, BASE_SPEED,
      SPEED_SCORE_COEFF, LANE_OVERLAP_FRACTION, max_def]

/-- Witness for C8: a 300 ms tick from an obstacle-free state whose
accumulator stands at 600 ms reaches the 900 ms interval and spawns one
obstacle in lane `⌊(1/2) * 3⌋ = 1`. -/
theorem spawn_mechanics_witness :
    ((⟨1, 0, [], 0, 0, 600, false⟩ : GameState).isGameOver = false ∧
      (tickClassify (Env.mk 100 560 (fun _ => 0)) 300
          ⟨1, 0, [], 0, 0, 600, false⟩).1 = false ∧
      0 ≤ (1/2 : ℚ) ∧ (1/2 : ℚ) < 1 ∧
      max 250 (900 - (((⟨1, 0, [], 0, 0, 600, false⟩ : GameState).score : ℚ))
          * 25) ≤
        (⟨1, 0, [], 0, 0, 600, false⟩ : GameState).spawnTimer + 300) ∧
    ((tickStep (Env.mk 100 560 (fun _ => 0)) 300 (1/2)
        ⟨1, 0, [], 0, 0, 600, false⟩).spawnTimer = 0 ∧
      (tickStep (Env.mk 100 560 (fun _ => 0)) 300 (1/2)
        ⟨1, 0, [], 0, 0, 600, false⟩).obstacles =
        (tickClassify (Env.mk 100 560 (fun _ => 0)) 300
            ⟨1, 0, [], 0, 0, 600, false⟩).2.2 ++
          [{ lane := randomLane (1/2),
             x := lanePositions (Env.mk 100 560 (fun _ => 0))
                    (randomLane (1/2)),
             y := -OBSTACLE_SIZE - 20 }]) :=
  ⟨⟨rfl, by norm_num [tickClassify, classify], by norm_num, by norm_num,
      by norm_num⟩,
    (spawn_mechanics (Env.mk 100 560 (fun _ => 0)) 300 (1/2)
        ⟨1, 0, [], 0, 0, 600, false⟩ rfl (by norm_num [tickClassify, classify])
        (by norm_num) (by norm_num)).1
      (by norm_num)⟩

/-- **C1, counterexample** — the claim says the score recorded into
`bestScore` at a game-over already includes the +1 increments from obstacles
that passed the field earlier in the same tick.  In the source
`handleCollision` reads `scoreRef.current` (line 118), which cannot yet
include the `setScore` increment queued at line 177 of the same tick (refs
are refreshed only after the commit).  Here one obstacle passes (+1) and
another collides in the same tick: the final score of the game is 1, but
`bestScore` stays 0 instead of `max 0 1 = 1`. -/
theorem bestScore_misses_same_tick_points :
    (tickStep (Env.mk 100 560 (fun _ => 0)) 100 0
        ⟨1, 0, [⟨1, 170, 611⟩, ⟨1, 170, 1904/5⟩], 0, 0, 0, false⟩).isGameOver
        = true ∧
    (tickStep (Env.mk 100 560 (fun _ => 0)) 100 0
        ⟨1, 0, [⟨1, 170, 611⟩, ⟨1, 170, 1904/5⟩], 0, 0, 0, false⟩).score = 1 ∧
    (tickStep (Env.mk 100 560 (fun _ => 0)) 100 0
        ⟨1, 0, [⟨1, 170, 611⟩, ⟨1, 170, 1904/5⟩], 0, 0, 0, false⟩).highScore
        = 0 ∧
    (tickStep (Env.mk 100 560 (fun _ => 0)) 100 0
        ⟨1, 0, [⟨1, 170, 611⟩, ⟨1, 170, 1904/5⟩], 0, 0, 0, false⟩).highScore
      ≠ max (⟨1, 0, [⟨1, 170, 611⟩, ⟨1, 170, 1904/5⟩], 0, 0, 0, false⟩ :
              GameState).highScore
          (tickStep (Env.mk 100 560 (fun _ => 0)) 100 0
            ⟨1, 0, [⟨1, 170, 611⟩, ⟨1, 170, 1904/5⟩], 0, 0, 0,
              false⟩).score := by
  refine ⟨?_, ?_, ?_, ?_⟩ <;>
    norm_num [tickStep, tickClassify, classify, tickSpeed, lanePositions,
      playerBaseline, computeJumpOffset, OBSTACLE_SIZE, SNOWMAN_SIZE,
      BASE_SPEED, SPEED_SCORE_COEFF, LANE_OVERLAP_FRACTION]

/-- **C1, amended** — at every game-over event the engine sets `bestScore` to
the maximum of the previous `bestScore` and the score *at the start of that
tick* (`scoreRef.current`, excluding the +1 increments earned in the same
tick); hence after any sequence of events, `bestScore` equals the running
maximum of its initial value and the start-of-tick scores recorded at the
game-over events. -/
theorem bestScore_running_max_of_pretick_scores (env : Env)
    (evs : List Event) (s : GameState) :
    (run env evs s).highScore =
      (goScores env evs s).foldl max s.highScore := by
  induction evs generalizing s with
  | nil => rfl
  | cons e rest ih =>
    cases e with
    | tick d r =>
      by_cases hc : s.isGameOver = false ∧ (tickClassify env d s).1 = true
      · have hh : (tickStep env d r s).highScore = max s.highScore s.score := by
          rw [tickStep_highScore, if_pos hc]
        calc (run env (.tick d r :: rest) s).highScore
            = (goScores env rest (tickStep env d r s)).foldl max
                (tickStep env d r s).highScore := ih _
          _ = (goScores env rest (tickStep env d r s)).foldl max
                (max s.highScore s.score) := by rw [hh]
          _ = (goScores env (.tick d r :: rest) s).foldl max s.highScore := by
                simp only [goScores, if_pos hc, step, List.foldl]
      · have hh : (tickStep env d r s).highScore = s.highScore := by
          rw [tickStep_highScore, if_neg hc]
        calc (run env (.tick d r :: rest) s).highScore
            = (goScores env rest (tickStep env d r s)).foldl max
                (tickStep env d r s).highScore := ih _
          _ = (goScores env (.tick d r :: rest) s).foldl max s.highScore := by
                rw [hh]
                simp only [goScores, if_neg hc, step]
    | jump => exact ih (step env .jump s)
    | left => exact ih (step env .left s)
    | right => exact ih (step env .right s)
    | reset => exact ih (step env .reset s)
